import Mathlib

/-!
Shallow embedding of `src/core/backbone_router/bbr_local.cpp` (the local
Backbone Router service of OpenThread).  The class `ot::BackboneRouter::Local`
is modelled as a pure state machine: its member fields become the record
`LocalState`, every collaborator it consults (`Mle::MleRouter`,
`BackboneRouter::Leader`, the network-data service manager, the random source,
...) is captured as a read-only snapshot `Env`, and every outward call it makes
(publishing/withdrawing the service record, signalling the notifier,
registering with the time ticker, ...) is recorded in an effect trace
`List Effect`.  Each member function becomes a Lean function from `Env` and
`LocalState` to the new state, the trace, and (for fallible operations) an
`OtError`.
-/

/-- Error codes (`ot::Error`) used by the embedded operations. -/
inductive OtError where
  | none
  | invalidArgs
  | notFound
  | invalidState
  | failed
deriving DecidableEq

/-- Role state of the local Backbone Router (`Local::State`):
`kStateDisabled`, `kStateSecondary`, `kStatePrimary`. -/
inductive RoleState where
  | disabled
  | secondary
  | primary
deriving DecidableEq

/-- Registration mode (`Local::RegisterMode`): `kDecideBasedOnState` vs
`kForceRegistration`. -/
inductive RegisterMode where
  | decideBasedOnState
  | forceRegistration
deriving DecidableEq

/-- An IPv6 prefix (`Ip6::Prefix`): a length in bits and the value of the
leading `length` bits (kept canonical, so structural equality coincides with
the source's prefix comparison, which compares the length and the leading
bits). -/
structure Pfx where
  length : Nat
  bits : Nat
deriving DecidableEq

/-- On-mesh prefix configuration (`NetworkData::OnMeshPrefixConfig`).  Only the
prefix field is consulted or mutated by the embedded operations; the route
metadata carried by the source struct is never read or written here. -/
structure OnMeshPfxConfig where
  pfx : Pfx
deriving DecidableEq

/-- Backbone Router configuration (`BackboneRouter::Config`):
`mSequenceNumber : uint8`, `mReregistrationDelay : uint16`,
`mMlrTimeout : uint32`, and `mServer16 : uint16` (the RLOC16 of the recorded
Primary holder, only meaningful for `HandleBackboneRouterPrimaryUpdate`). -/
structure Config where
  mSequenceNumber : Nat
  mReregistrationDelay : Nat
  mMlrTimeout : Nat
  mServer16 : Nat
deriving DecidableEq

/-- Events signalled through the `Notifier` collaborator:
`kEventThreadBackboneRouterLocalChanged` and
`kEventThreadBackboneRouterStateChanged`. -/
inductive EventKind where
  | localChanged
  | stateChanged
deriving DecidableEq

/-- One outward action of the state machine, recorded in order of emission.
`attemptAddService` marks every invocation of `Local::AddService` with its
mode; the remaining constructors are the collaborator calls the source
makes. -/
inductive Effect where
  | signal (e : EventKind)
  | attemptAddService (m : RegisterMode)
  | netdataAddSvc (seq delay timeout : Nat)
  | netdataRemoveSvc
  | serverDataUpdated
  | addOnMeshPfx (c : OnMeshPfxConfig)
  | removeOnMeshPfx (p : Pfx)
  | registerTickReceiver
  | unregisterTickReceiver
  | addUnicastAloc
  | removeUnicastAloc
deriving DecidableEq

/-- `Mac::kShortAddrInvalid`: the invalid/null short address constant (defined
in a MAC header outside this file's translation unit; only its distinctness
from valid RLOC16 values matters here). -/
def kShortAddrInvalid : Nat := 0xfffe

/-- Snapshot of every collaborator value the embedded operations read, plus the
outcome of each fallible collaborator call and of the random draw.  A theorem
hypothesis such as `randDraw ≤ jitter` expresses the random source's contract
(`Random::NonCrypto::GetUint16InRange(0, n)` returns a value `< n`). -/
structure Env where
  /-- `Mle::Mle::IsAttached()` / `Mle::MleRouter::IsAttached()` -/
  isAttached : Bool
  /-- `Mle::MleRouter::IsLeader()` -/
  isLeader : Bool
  /-- `Mle::MleRouter::GetRloc16()` -/
  rloc16 : Nat
  /-- `BackboneRouter::Leader::HasPrimary()` -/
  hasPrimary : Bool
  /-- `BackboneRouter::Leader::GetServer16()` -/
  leaderServer16 : Nat
  /-- `Mle::MleRouter::GetMeshLocalPrefix()` -/
  meshLocalPfx : Pfx
  /-- `Mle::MleRouter::GetRouterSelectionJitterTimeout()` -/
  routerSelectionJitterTimeout : Nat
  /-- Result of `Random::NonCrypto::GetUint16InRange(0, jitter + 1)` -/
  randDraw : Nat
  /-- Result of `NetworkData::Service::Manager::Add<BackboneRouter>(...)` -/
  svcAddError : OtError
  /-- Result of `NetworkData::Service::Manager::Remove<BackboneRouter>()` -/
  svcRemoveError : OtError
  /-- `kMinMlrTimeout` (constant from the class header) -/
  kMinMlrTimeout : Nat
  /-- `kMaxMlrTimeout` (constant from the class header) -/
  kMaxMlrTimeout : Nat
deriving DecidableEq

/-- Member fields of `ot::BackboneRouter::Local`.  `mAllNetworkBbrPfx` is the
network-prefix component of the All-Network-Backbone-Routers multicast address
(the part `SetMulticastNetworkPrefix` substitutes). -/
structure LocalState where
  mState : RoleState
  mMlrTimeout : Nat
  mReregistrationDelay : Nat
  mRegistrationTimeout : Nat
  mSequenceNumber : Nat
  mRegistrationJitter : Nat
  mIsServiceAdded : Bool
  mDomainPfxConfig : OnMeshPfxConfig
  mAllNetworkBbrPfx : Pfx
deriving DecidableEq

/-- `Local::IsEnabled()`: the instance is enabled iff its state is not
`kStateDisabled`. -/
def IsEnabled (s : LocalState) : Bool :=
  s.mState != RoleState.disabled

/-- `Local::SequenceNumberIncrease()`: the 8-bit sequence counter increment
with its two reserved flip bands (126/127 to 0, 254/255 to 128, otherwise
`mSequenceNumber++` on a `uint8_t`). -/
def SequenceNumberIncrease (s : Nat) : Nat :=
  match s with
  | 126 => 0
  | 127 => 0
  | 254 => 128
  | 255 => 128
  | _ => (s + 1) % 256

/-- `Local::AddService(aMode)`.  The leading `attemptAddService` effect marks
the invocation itself; `netdataAddSvc` is the actual publish call to the
network-data service manager, made only when the state/attachment and
mode-dependent checks pass. -/
def AddService (env : Env) (aMode : RegisterMode) (s : LocalState) :
    LocalState × List Effect × OtError :=
  if s.mState ≠ RoleState.disabled ∧ env.isAttached = true then
    let pass : Bool :=
      match aMode with
      | RegisterMode.decideBasedOnState =>
          !env.hasPrimary || env.leaderServer16 == env.rloc16
      | RegisterMode.forceRegistration => true
    if pass then
      if env.svcAddError = OtError.none then
        ({ s with mIsServiceAdded := true },
         [Effect.attemptAddService aMode,
          Effect.netdataAddSvc s.mSequenceNumber s.mReregistrationDelay s.mMlrTimeout,
          Effect.serverDataUpdated],
         OtError.none)
      else
        (s,
         [Effect.attemptAddService aMode,
          Effect.netdataAddSvc s.mSequenceNumber s.mReregistrationDelay s.mMlrTimeout],
         env.svcAddError)
    else
      (s, [Effect.attemptAddService aMode], OtError.invalidState)
  else
    (s, [Effect.attemptAddService aMode], OtError.invalidState)

/-- `Local::RemoveService()`: always calls the service manager's remove; on
success it also notifies `HandleServerDataUpdated` and clears
`mIsServiceAdded`. -/
def RemoveService (env : Env) (s : LocalState) : LocalState × List Effect :=
  if env.svcRemoveError = OtError.none then
    ({ s with mIsServiceAdded := false },
     [Effect.netdataRemoveSvc, Effect.serverDataUpdated])
  else
    (s, [Effect.netdataRemoveSvc])

/-- `Local::SetState(aState)`: no-op when unchanged; refreshes the
All-Network-BBRs multicast prefix when leaving Disabled; removes the Primary
ALOC when leaving Primary and adds it when entering Primary; then signals
`kEventThreadBackboneRouterStateChanged`. -/
def SetState (env : Env) (aState : RoleState) (s : LocalState) :
    LocalState × List Effect :=
  if s.mState = aState then
    (s, [])
  else
    let s1 :=
      if s.mState = RoleState.disabled then
        { s with mAllNetworkBbrPfx := env.meshLocalPfx }
      else s
    let aloc : List Effect :=
      if s.mState = RoleState.primary then [Effect.removeUnicastAloc]
      else if aState = RoleState.primary then [Effect.addUnicastAloc]
      else []
    ({ s1 with mState := aState }, aloc ++ [Effect.signal EventKind.stateChanged])

/-- `Local::AddDomainPrefixToNetworkData()`: mirrors the stored domain prefix
into the network-data store when one is stored (nonzero length). -/
def AddDomainPfxToNetworkData (s : LocalState) : List Effect :=
  if 0 < s.mDomainPfxConfig.pfx.length then
    [Effect.addOnMeshPfx s.mDomainPfxConfig]
  else []

/-- `Local::RemoveDomainPrefixFromNetworkData()`: withdraws the network-data
mirror when a domain prefix is stored. -/
def RemoveDomainPfxFromNetworkData (s : LocalState) : List Effect :=
  if 0 < s.mDomainPfxConfig.pfx.length then
    [Effect.removeOnMeshPfx s.mDomainPfxConfig.pfx]
  else []

/-- `Local::SetEnabled(aEnable)`: no-op when the requested enabled-ness already
holds; enabling transitions to Secondary, mirrors the domain prefix, and
attempts registration in decide mode; disabling withdraws the mirror and the
service and transitions to Disabled. -/
def SetEnabled (env : Env) (aEnable : Bool) (s : LocalState) :
    LocalState × List Effect :=
  if aEnable = IsEnabled s then
    (s, [])
  else if aEnable then
    let r1 := SetState env RoleState.secondary s
    let e2 := AddDomainPfxToNetworkData r1.1
    let r3 := AddService env RegisterMode.decideBasedOnState r1.1
    (r3.1, r1.2 ++ e2 ++ r3.2.1)
  else
    let e1 := RemoveDomainPfxFromNetworkData s
    let r2 := RemoveService env s
    let r3 := SetState env RoleState.disabled r2.1
    (r3.1, e1 ++ r2.2 ++ r3.2)

/-- `Local::Reset()`: no-op when Disabled; otherwise withdraws the service,
and when Primary additionally bumps the sequence number, signals
`kEventThreadBackboneRouterLocalChanged`, and demotes to Secondary. -/
def Reset (env : Env) (s : LocalState) : LocalState × List Effect :=
  if s.mState = RoleState.disabled then
    (s, [])
  else
    let r1 := RemoveService env s
    if r1.1.mState = RoleState.primary then
      let s2 := { r1.1 with mSequenceNumber := SequenceNumberIncrease r1.1.mSequenceNumber }
      let r3 := SetState env RoleState.secondary s2
      (r3.1, r1.2 ++ [Effect.signal EventKind.localChanged] ++ r3.2)
    else
      (r1.1, r1.2)

/-- `Local::SetConfig(aConfig)`: validates the MLR-timeout range and the
Thread 1.2.1 invariants (`mReregistrationDelay >= 1`,
`mReregistrationDelay * 2 < mMlrTimeout`), then applies each differing field,
and on any change signals local-changed and re-attempts registration in decide
mode. -/
def SetConfig (env : Env) (aConfig : Config) (s : LocalState) :
    LocalState × List Effect × OtError :=
  if ¬(env.kMinMlrTimeout ≤ aConfig.mMlrTimeout ∧ aConfig.mMlrTimeout ≤ env.kMaxMlrTimeout) then
    (s, [], OtError.invalidArgs)
  else if ¬(1 ≤ aConfig.mReregistrationDelay) then
    (s, [], OtError.invalidArgs)
  else if ¬(aConfig.mReregistrationDelay * 2 < aConfig.mMlrTimeout) then
    (s, [], OtError.invalidArgs)
  else
    let u1 : Bool := aConfig.mReregistrationDelay != s.mReregistrationDelay
    let sA := if u1 then { s with mReregistrationDelay := aConfig.mReregistrationDelay } else s
    let u2 : Bool := aConfig.mMlrTimeout != sA.mMlrTimeout
    let sB := if u2 then { sA with mMlrTimeout := aConfig.mMlrTimeout } else sA
    let u3 : Bool := aConfig.mSequenceNumber != sB.mSequenceNumber
    let s1 := if u3 then { sB with mSequenceNumber := aConfig.mSequenceNumber } else sB
    let update : Bool := u1 || u2 || u3
    if update then
      let r2 := AddService env RegisterMode.decideBasedOnState s1
      (r2.1, [Effect.signal EventKind.localChanged] ++ r2.2.1, OtError.none)
    else
      (s1, [], OtError.none)

/-- `Local::HandleBackboneRouterPrimaryUpdate(aState, aConfig)`: ignored while
disabled or detached; on a vacancy (`mServer16 == kShortAddrInvalid`) arms the
registration countdown with jitter and registers for ticks; on a differing
holder calls `Reset()`; on self as holder with the service not yet added,
restores the configuration from the network, bumps the sequence number,
signals local-changed and force-registers; otherwise transitions to
Primary. -/
def HandleBackboneRouterPrimaryUpdate (env : Env) (aConfig : Config)
    (s : LocalState) : LocalState × List Effect :=
  if IsEnabled s = true ∧ env.isAttached = true then
    if aConfig.mServer16 = kShortAddrInvalid then
      let t := 1 + (if env.isLeader then 0 else env.randDraw)
      ({ s with mRegistrationTimeout := t }, [Effect.registerTickReceiver])
    else if aConfig.mServer16 ≠ env.rloc16 then
      Reset env s
    else if s.mIsServiceAdded = false then
      let s1 := { s with
        mSequenceNumber := aConfig.mSequenceNumber
        mReregistrationDelay := aConfig.mReregistrationDelay
        mMlrTimeout := aConfig.mMlrTimeout }
      let s2 := { s1 with mSequenceNumber := SequenceNumberIncrease s1.mSequenceNumber }
      let r3 := AddService env RegisterMode.forceRegistration s2
      (r3.1, [Effect.signal EventKind.localChanged] ++ r3.2.1)
    else
      SetState env RoleState.primary s
  else
    (s, [])

/-- `Local::HandleTimeTick()`: suppressed entirely (bar the final
deregistration check) while the router-selection jitter timeout is nonzero;
otherwise decrements a positive countdown and fires a decide-mode registration
attempt exactly when it reaches 0; in every path, a zero countdown at the end
deregisters the tick receiver. -/
def HandleTimeTick (env : Env) (s : LocalState) : LocalState × List Effect :=
  let r1 :=
    if env.routerSelectionJitterTimeout = 0 then
      if 0 < s.mRegistrationTimeout then
        let s1 := { s with mRegistrationTimeout := s.mRegistrationTimeout - 1 }
        if s1.mRegistrationTimeout = 0 then
          let r := AddService env RegisterMode.decideBasedOnState s1
          (r.1, r.2.1)
        else
          (s1, ([] : List Effect))
      else
        (s, ([] : List Effect))
    else
      (s, ([] : List Effect))
  if r1.1.mRegistrationTimeout = 0 then
    (r1.1, r1.2 ++ [Effect.unregisterTickReceiver])
  else
    r1

/-- `Local::RemoveDomainPrefix(aPrefix)`: invalid-argument on a zero-length
input, not-found unless it equals the stored prefix; on a match, withdraws the
mirror when enabled and clears the stored prefix length. -/
def RemoveDomainPfx (aPfx : Pfx) (s : LocalState) :
    LocalState × List Effect × OtError :=
  if ¬(0 < aPfx.length) then
    (s, [], OtError.invalidArgs)
  else if s.mDomainPfxConfig.pfx ≠ aPfx then
    (s, [], OtError.notFound)
  else
    let e := if IsEnabled s then RemoveDomainPfxFromNetworkData s else []
    ({ s with mDomainPfxConfig :=
        { s.mDomainPfxConfig with pfx := { s.mDomainPfxConfig.pfx with length := 0 } } },
     e, OtError.none)

/-- Number of `AddService` invocations recorded in a trace. -/
def countAttempts (l : List Effect) : Nat :=
  l.countP fun e =>
    match e with
    | Effect.attemptAddService _ => true
    | _ => false

/-- Helper: `AddService` never changes any field other than `mIsServiceAdded`. -/
theorem AddService_fields (env : Env) (m : RegisterMode) (s : LocalState) :
    (AddService env m s).1.mState = s.mState ∧
    (AddService env m s).1.mSequenceNumber = s.mSequenceNumber ∧
    (AddService env m s).1.mReregistrationDelay = s.mReregistrationDelay ∧
    (AddService env m s).1.mMlrTimeout = s.mMlrTimeout ∧
    (AddService env m s).1.mRegistrationTimeout = s.mRegistrationTimeout ∧
    (AddService env m s).1.mRegistrationJitter = s.mRegistrationJitter ∧
    (AddService env m s).1.mDomainPfxConfig = s.mDomainPfxConfig ∧
    (AddService env m s).1.mAllNetworkBbrPfx = s.mAllNetworkBbrPfx := by
  unfold AddService
  cases m <;> simp only [] <;> split_ifs <;> simp_all

/-- Helper: the trace of `AddService` is one of three explicit lists, each
starting with the invocation marker. -/
theorem AddService_trace (env : Env) (m : RegisterMode) (s : LocalState) :
    (AddService env m s).2.1 = [Effect.attemptAddService m] ∨
    (AddService env m s).2.1 =
      [Effect.attemptAddService m,
       Effect.netdataAddSvc s.mSequenceNumber s.mReregistrationDelay s.mMlrTimeout] ∨
    (AddService env m s).2.1 =
      [Effect.attemptAddService m,
       Effect.netdataAddSvc s.mSequenceNumber s.mReregistrationDelay s.mMlrTimeout,
       Effect.serverDataUpdated] := by
  unfold AddService
  cases m <;> simp only [] <;> split_ifs <;> simp_all

/-- Sample collaborator snapshot used by the closed witness theorems: attached,
not the leader, no confirmed Primary, successful collaborator calls. -/
def envW : Env :=
  { isAttached := true
    isLeader := false
    rloc16 := 0x0400
    hasPrimary := false
    leaderServer16 := 0x0800
    meshLocalPfx := { length := 64, bits := 3 }
    routerSelectionJitterTimeout := 0
    randDraw := 2
    svcAddError := OtError.none
    svcRemoveError := OtError.none
    kMinMlrTimeout := 300
    kMaxMlrTimeout := 10000 }

/-- Sample instance state used by the closed witness theorems: enabled
(Secondary), service not yet added, a 64-bit domain prefix stored. -/
def baseState : LocalState :=
  { mState := RoleState.secondary
    mMlrTimeout := 3600
    mReregistrationDelay := 5
    mRegistrationTimeout := 0
    mSequenceNumber := 10
    mRegistrationJitter := 5
    mIsServiceAdded := false
    mDomainPfxConfig := { pfx := { length := 64, bits := 7 } }
    mAllNetworkBbrPfx := { length := 64, bits := 3 } }

set_option maxRecDepth 4000 in
/-- Claim C1: for every 8-bit sequence number, the increment maps 126 and 127
to 0, maps 254 and 255 to 128, and maps every other value to its successor;
and it is not the plain modulo-256 increment. -/
theorem seqIncrease_banded (s : Nat) (h : s < 256) :
    SequenceNumberIncrease s =
      (if s = 126 ∨ s = 127 then 0
       else if s = 254 ∨ s = 255 then 128
       else s + 1) ∧
    ∃ t, t < 256 ∧ SequenceNumberIncrease t ≠ (t + 1) % 256 := by
  refine ⟨?_, 126, by decide, by decide⟩
  have hall : ∀ u < 256, SequenceNumberIncrease u =
      (if u = 126 ∨ u = 127 then 0
       else if u = 254 ∨ u = 255 then 128
       else u + 1) := by decide
  exact hall s h

/-- Witness for C1 at the concrete input 130. -/
theorem seqIncrease_banded_witness :
    130 < 256 ∧
    (SequenceNumberIncrease 130 =
      (if 130 = 126 ∨ 130 = 127 then 0
       else if 130 = 254 ∨ 130 = 255 then 128
       else 130 + 1) ∧
    ∃ t, t < 256 ∧ SequenceNumberIncrease t ≠ (t + 1) % 256) :=
  ⟨by decide, seqIncrease_banded 130 (by decide)⟩

/-- Claim C2: `SetConfig` returns invalid-argument and leaves the stored
configuration entirely unchanged whenever the requested reregistration delay
is below 1 or twice the delay is at least the MLR timeout. -/
theorem setConfig_rejects (env : Env) (c : Config) (s : LocalState)
    (h : c.mReregistrationDelay < 1 ∨ c.mMlrTimeout ≤ 2 * c.mReregistrationDelay) :
    SetConfig env c s = (s, [], OtError.invalidArgs) := by
  unfold SetConfig
  split_ifs with h1 h2 h3 <;> first | rfl | (exfalso; omega)

/-- Witness for C2: a config with delay 5 and MLR timeout 10 (2*5 ≥ 10) is
rejected and the state is untouched. -/
theorem setConfig_rejects_witness :
    ((5 : Nat) < 1 ∨ (10 : Nat) ≤ 2 * 5) ∧
    SetConfig envW
      { mSequenceNumber := 1, mReregistrationDelay := 5, mMlrTimeout := 10, mServer16 := 0 }
      baseState = (baseState, [], OtError.invalidArgs) :=
  ⟨by decide,
   setConfig_rejects envW
     { mSequenceNumber := 1, mReregistrationDelay := 5, mMlrTimeout := 10, mServer16 := 0 }
     baseState (by decide)⟩

/-- Claim C8: `RemoveDomainPrefix` returns invalid-argument on a zero-length
prefix and not-found on a nonempty prefix differing from the stored one, and
in both failure cases returns the state unchanged with no effects. -/
theorem removeDomainPfx_fail (p : Pfx) (s : LocalState) :
    (p.length = 0 → RemoveDomainPfx p s = (s, [], OtError.invalidArgs)) ∧
    (0 < p.length → s.mDomainPfxConfig.pfx ≠ p →
      RemoveDomainPfx p s = (s, [], OtError.notFound)) := by
  constructor
  · intro h0
    unfold RemoveDomainPfx
    rw [if_pos (by omega)]
  · intro hpos hne
    unfold RemoveDomainPfx
    rw [if_neg (by omega), if_pos hne]

/-- Witness for C8 at a zero-length prefix and at a mismatching 64-bit
prefix. -/
theorem removeDomainPfx_fail_witness :
    (RemoveDomainPfx { length := 0, bits := 0 } baseState =
      (baseState, [], OtError.invalidArgs)) ∧
    ((0 : Nat) < 64 ∧ baseState.mDomainPfxConfig.pfx ≠ { length := 64, bits := 9 } ∧
      RemoveDomainPfx { length := 64, bits := 9 } baseState =
        (baseState, [], OtError.notFound)) :=
  ⟨(removeDomainPfx_fail { length := 0, bits := 0 } baseState).1 (by decide),
   by decide,
   by decide,
   (removeDomainPfx_fail { length := 64, bits := 9 } baseState).2 (by decide) (by decide)⟩

/-- Claim C10: while the routing collaborator reports a nonzero pending
role-selection jitter, a tick leaves the whole state (in particular the armed
countdown) unchanged and fires no registration attempt; but when the countdown
is already 0 it still deregisters the tick receiver. -/
theorem handleTimeTick_suppressed (env : Env) (s : LocalState)
    (h : env.routerSelectionJitterTimeout ≠ 0) :
    HandleTimeTick env s =
      (s, if s.mRegistrationTimeout = 0 then [Effect.unregisterTickReceiver] else []) := by
  unfold HandleTimeTick
  rw [if_neg h]
  split_ifs with h0
  · rw [if_pos h0]
    rfl
  · rw [if_neg h0]

/-- Witness for C10: with jitter timeout 1 and countdown 0, the tick changes
nothing but still deregisters the receiver. -/
theorem handleTimeTick_suppressed_witness :
    ({ envW with routerSelectionJitterTimeout := 1 } : Env).routerSelectionJitterTimeout ≠ 0 ∧
    HandleTimeTick { envW with routerSelectionJitterTimeout := 1 } baseState =
      (baseState,
       if baseState.mRegistrationTimeout = 0 then [Effect.unregisterTickReceiver] else []) :=
  ⟨by decide,
   handleTimeTick_suppressed { envW with routerSelectionJitterTimeout := 1 } baseState
     (by decide)⟩

/-- Sample Primary-state instance (service added) for the witnesses. -/
def sPrim : LocalState :=
  { baseState with mState := RoleState.primary, mIsServiceAdded := true }

/-- Sample Disabled-state instance for the witnesses. -/
def sDis : LocalState :=
  { baseState with mState := RoleState.disabled }

/-- Claim C4: `Reset` on a Primary instance bumps the sequence number exactly
once and demotes to Secondary; on a Secondary instance it withdraws the
service but changes neither the sequence number nor the role state; on a
Disabled instance it is a no-op. -/
theorem reset_by_role (env : Env) (s : LocalState) :
    (s.mState = RoleState.primary →
      (Reset env s).1.mSequenceNumber = SequenceNumberIncrease s.mSequenceNumber ∧
      (Reset env s).1.mState = RoleState.secondary) ∧
    (s.mState = RoleState.secondary →
      Effect.netdataRemoveSvc ∈ (Reset env s).2 ∧
      (Reset env s).1.mSequenceNumber = s.mSequenceNumber ∧
      (Reset env s).1.mState = RoleState.secondary) ∧
    (s.mState = RoleState.disabled → Reset env s = (s, [])) := by
  refine ⟨?_, ?_, ?_⟩
  · intro hp
    unfold Reset RemoveService SetState
    split_ifs <;> simp_all
  · intro hs
    unfold Reset RemoveService SetState
    split_ifs <;> simp_all
  · intro hd
    unfold Reset
    rw [if_pos hd]

/-- Witness for C4 at a concrete Primary, Secondary and Disabled instance. -/
theorem reset_by_role_witness :
    ((Reset envW sPrim).1.mSequenceNumber = SequenceNumberIncrease sPrim.mSequenceNumber ∧
     (Reset envW sPrim).1.mState = RoleState.secondary) ∧
    (Effect.netdataRemoveSvc ∈ (Reset envW baseState).2 ∧
     (Reset envW baseState).1.mSequenceNumber = baseState.mSequenceNumber ∧
     (Reset envW baseState).1.mState = RoleState.secondary) ∧
    Reset envW sDis = (sDis, []) := by
  refine ⟨(reset_by_role envW sPrim).1 (by decide),
          (reset_by_role envW baseState).2.1 (by decide),
          (reset_by_role envW sDis).2.2 (by decide)⟩

/-- Helper: enabling a Disabled instance reduces to the Secondary transition,
the domain-prefix mirror, and a decide-mode registration attempt. -/
theorem setEnabled_on_disabled (env : Env) (s : LocalState)
    (h : s.mState = RoleState.disabled) :
    SetEnabled env true s =
      ((AddService env RegisterMode.decideBasedOnState
          { s with mAllNetworkBbrPfx := env.meshLocalPfx, mState := RoleState.secondary }).1,
       [Effect.signal EventKind.stateChanged] ++
         AddDomainPfxToNetworkData
           { s with mAllNetworkBbrPfx := env.meshLocalPfx, mState := RoleState.secondary } ++
         (AddService env RegisterMode.decideBasedOnState
           { s with mAllNetworkBbrPfx := env.meshLocalPfx, mState := RoleState.secondary }).2.1) := by
  unfold SetEnabled SetState
  simp [IsEnabled, h]

/-- Helper: `SetEnabled true` on an already-enabled instance is a no-op. -/
theorem setEnabled_noop (env : Env) (s : LocalState) (h : IsEnabled s = true) :
    SetEnabled env true s = (s, []) := by
  unfold SetEnabled
  rw [if_pos (by rw [h])]

/-- Claim C5: `Enable(true)` on a Disabled instance transitions to Secondary,
mirrors the stored domain prefix (when one is stored) into the network-data
collaborator, and attempts decide-mode registration; a second `Enable(true)`
(under any collaborator snapshot) is a complete no-op. -/
theorem setEnabled_spec (env env2 : Env) (s : LocalState)
    (h : s.mState = RoleState.disabled) :
    (SetEnabled env true s).1.mState = RoleState.secondary ∧
    (0 < s.mDomainPfxConfig.pfx.length →
      Effect.addOnMeshPfx s.mDomainPfxConfig ∈ (SetEnabled env true s).2) ∧
    Effect.attemptAddService RegisterMode.decideBasedOnState ∈ (SetEnabled env true s).2 ∧
    SetEnabled env2 true (SetEnabled env true s).1 = ((SetEnabled env true s).1, []) := by
  have he := setEnabled_on_disabled env s h
  have hm : (SetEnabled env true s).1.mState = RoleState.secondary := by
    rw [he]
    exact (AddService_fields env RegisterMode.decideBasedOnState _).1
  refine ⟨hm, ?_, ?_, ?_⟩
  · intro hlen
    rw [he]
    have hmem : Effect.addOnMeshPfx s.mDomainPfxConfig ∈
        AddDomainPfxToNetworkData
          { s with mAllNetworkBbrPfx := env.meshLocalPfx, mState := RoleState.secondary } := by
      unfold AddDomainPfxToNetworkData
      rw [if_pos (by simpa using hlen)]
      simp
    simp only [List.mem_append]
    exact Or.inl (Or.inr hmem)
  · rw [he]
    rcases AddService_trace env RegisterMode.decideBasedOnState
        { s with mAllNetworkBbrPfx := env.meshLocalPfx, mState := RoleState.secondary } with
      h1 | h1 | h1 <;> simp [h1]
  · exact setEnabled_noop env2 _ (by simp [IsEnabled, hm])

/-- Witness for C5 at a concrete Disabled instance holding a domain prefix. -/
theorem setEnabled_spec_witness :
    (SetEnabled envW true sDis).1.mState = RoleState.secondary ∧
    (Effect.addOnMeshPfx sDis.mDomainPfxConfig ∈ (SetEnabled envW true sDis).2) ∧
    Effect.attemptAddService RegisterMode.decideBasedOnState ∈ (SetEnabled envW true sDis).2 ∧
    SetEnabled envW true (SetEnabled envW true sDis).1 = ((SetEnabled envW true sDis).1, []) := by
  have h := setEnabled_spec envW envW sDis (by decide)
  exact ⟨h.1, h.2.1 (by decide), h.2.2.1, h.2.2.2⟩

/-- Helper: the restore branch of the leader update (holder is self, service
not yet added) reduces to adopting the reported configuration, bumping the
sequence number, signalling local-changed and force-registering. -/
theorem handlePrimaryUpdate_restore_eq (env : Env) (c : Config) (s : LocalState)
    (hEn : IsEnabled s = true) (hAtt : env.isAttached = true)
    (hSelf : c.mServer16 = env.rloc16) (hValid : env.rloc16 ≠ kShortAddrInvalid)
    (hNotAdded : s.mIsServiceAdded = false) :
    HandleBackboneRouterPrimaryUpdate env c s =
      ((AddService env RegisterMode.forceRegistration
          { s with
            mSequenceNumber := SequenceNumberIncrease c.mSequenceNumber
            mReregistrationDelay := c.mReregistrationDelay
            mMlrTimeout := c.mMlrTimeout }).1,
       [Effect.signal EventKind.localChanged] ++
         (AddService env RegisterMode.forceRegistration
           { s with
             mSequenceNumber := SequenceNumberIncrease c.mSequenceNumber
             mReregistrationDelay := c.mReregistrationDelay
             mMlrTimeout := c.mMlrTimeout }).2.1) := by
  unfold HandleBackboneRouterPrimaryUpdate
  rw [if_pos ⟨hEn, hAtt⟩, if_neg (by rw [hSelf]; exact hValid), if_neg (by
    rw [hSelf]; exact fun hne => hne rfl), if_pos hNotAdded]

/-- Claim C3: on a leader update reporting self as holder while the service is
not yet added, the instance adopts the reported sequence number, delay and MLR
timeout, bumps the sequence number exactly once, signals local-config-changed,
force-registers, and neither changes the role state nor signals a role
change. -/
theorem handlePrimaryUpdate_restore (env : Env) (c : Config) (s : LocalState)
    (hEn : IsEnabled s = true) (hAtt : env.isAttached = true)
    (hSelf : c.mServer16 = env.rloc16) (hValid : env.rloc16 ≠ kShortAddrInvalid)
    (hNotAdded : s.mIsServiceAdded = false) :
    (HandleBackboneRouterPrimaryUpdate env c s).1.mState = s.mState ∧
    (HandleBackboneRouterPrimaryUpdate env c s).1.mSequenceNumber =
      SequenceNumberIncrease c.mSequenceNumber ∧
    (HandleBackboneRouterPrimaryUpdate env c s).1.mReregistrationDelay =
      c.mReregistrationDelay ∧
    (HandleBackboneRouterPrimaryUpdate env c s).1.mMlrTimeout = c.mMlrTimeout ∧
    Effect.signal EventKind.localChanged ∈ (HandleBackboneRouterPrimaryUpdate env c s).2 ∧
    Effect.attemptAddService RegisterMode.forceRegistration ∈
      (HandleBackboneRouterPrimaryUpdate env c s).2 ∧
    Effect.signal EventKind.stateChanged ∉ (HandleBackboneRouterPrimaryUpdate env c s).2 := by
  have he := handlePrimaryUpdate_restore_eq env c s hEn hAtt hSelf hValid hNotAdded
  rw [he]
  have hf := AddService_fields env RegisterMode.forceRegistration
    { s with
      mSequenceNumber := SequenceNumberIncrease c.mSequenceNumber
      mReregistrationDelay := c.mReregistrationDelay
      mMlrTimeout := c.mMlrTimeout }
  refine ⟨hf.1, by rw [hf.2.1], by rw [hf.2.2.1], by rw [hf.2.2.2.1], ?_, ?_, ?_⟩
  · simp
  · rcases AddService_trace env RegisterMode.forceRegistration
        { s with
          mSequenceNumber := SequenceNumberIncrease c.mSequenceNumber
          mReregistrationDelay := c.mReregistrationDelay
          mMlrTimeout := c.mMlrTimeout } with h1 | h1 | h1 <;> simp [h1]
  · rcases AddService_trace env RegisterMode.forceRegistration
        { s with
          mSequenceNumber := SequenceNumberIncrease c.mSequenceNumber
          mReregistrationDelay := c.mReregistrationDelay
          mMlrTimeout := c.mMlrTimeout } with h1 | h1 | h1 <;> simp [h1]

/-- Witness for C3 at a concrete enabled Secondary instance with the service
not yet added and the leader reporting this node's own RLOC16. -/
theorem handlePrimaryUpdate_restore_witness :
    (HandleBackboneRouterPrimaryUpdate envW
        { mSequenceNumber := 77, mReregistrationDelay := 9, mMlrTimeout := 4000,
          mServer16 := 0x0400 } baseState).1.mState = baseState.mState ∧
    (HandleBackboneRouterPrimaryUpdate envW
        { mSequenceNumber := 77, mReregistrationDelay := 9, mMlrTimeout := 4000,
          mServer16 := 0x0400 } baseState).1.mSequenceNumber =
      SequenceNumberIncrease 77 ∧
    Effect.signal EventKind.localChanged ∈
      (HandleBackboneRouterPrimaryUpdate envW
        { mSequenceNumber := 77, mReregistrationDelay := 9, mMlrTimeout := 4000,
          mServer16 := 0x0400 } baseState).2 ∧
    Effect.attemptAddService RegisterMode.forceRegistration ∈
      (HandleBackboneRouterPrimaryUpdate envW
        { mSequenceNumber := 77, mReregistrationDelay := 9, mMlrTimeout := 4000,
          mServer16 := 0x0400 } baseState).2 ∧
    Effect.signal EventKind.stateChanged ∉
      (HandleBackboneRouterPrimaryUpdate envW
        { mSequenceNumber := 77, mReregistrationDelay := 9, mMlrTimeout := 4000,
          mServer16 := 0x0400 } baseState).2 := by
  have h := handlePrimaryUpdate_restore envW
    { mSequenceNumber := 77, mReregistrationDelay := 9, mMlrTimeout := 4000,
      mServer16 := 0x0400 } baseState (by decide) (by decide) (by decide) (by decide)
    (by decide)
  exact ⟨h.1, h.2.1, h.2.2.2.2.1, h.2.2.2.2.2.1, h.2.2.2.2.2.2⟩

/-- Claim C6: a leader update reporting a vacancy (invalid holder address) on
an enabled, attached instance arms a nonzero countdown and registers for tick
notifications; the countdown is exactly 1 when this node is the leader, and
otherwise 1 plus the bounded random draw. -/
theorem handlePrimaryUpdate_vacancy (env : Env) (c : Config) (s : LocalState)
    (hEn : IsEnabled s = true) (hAtt : env.isAttached = true)
    (hVac : c.mServer16 = kShortAddrInvalid)
    (hRand : env.randDraw ≤ s.mRegistrationJitter) :
    0 < (HandleBackboneRouterPrimaryUpdate env c s).1.mRegistrationTimeout ∧
    Effect.registerTickReceiver ∈ (HandleBackboneRouterPrimaryUpdate env c s).2 ∧
    (env.isLeader = true →
      (HandleBackboneRouterPrimaryUpdate env c s).1.mRegistrationTimeout = 1) ∧
    (env.isLeader = false →
      (HandleBackboneRouterPrimaryUpdate env c s).1.mRegistrationTimeout =
        1 + env.randDraw ∧
      (HandleBackboneRouterPrimaryUpdate env c s).1.mRegistrationTimeout ≤
        1 + s.mRegistrationJitter) := by
  have he : HandleBackboneRouterPrimaryUpdate env c s =
      ({ s with mRegistrationTimeout := 1 + (if env.isLeader then 0 else env.randDraw) },
       [Effect.registerTickReceiver]) := by
    unfold HandleBackboneRouterPrimaryUpdate
    rw [if_pos ⟨hEn, hAtt⟩, if_pos hVac]
  rw [he]
  cases hl : env.isLeader <;> (simp; try omega)

/-- Witness for C6 at a concrete non-leader instance with draw 2 and jitter
bound 5. -/
theorem handlePrimaryUpdate_vacancy_witness :
    0 < (HandleBackboneRouterPrimaryUpdate envW
        { mSequenceNumber := 0, mReregistrationDelay := 4, mMlrTimeout := 300,
          mServer16 := kShortAddrInvalid } baseState).1.mRegistrationTimeout ∧
    Effect.registerTickReceiver ∈
      (HandleBackboneRouterPrimaryUpdate envW
        { mSequenceNumber := 0, mReregistrationDelay := 4, mMlrTimeout := 300,
          mServer16 := kShortAddrInvalid } baseState).2 ∧
    (HandleBackboneRouterPrimaryUpdate envW
        { mSequenceNumber := 0, mReregistrationDelay := 4, mMlrTimeout := 300,
          mServer16 := kShortAddrInvalid } baseState).1.mRegistrationTimeout =
      1 + envW.randDraw ∧
    (HandleBackboneRouterPrimaryUpdate envW
        { mSequenceNumber := 0, mReregistrationDelay := 4, mMlrTimeout := 300,
          mServer16 := kShortAddrInvalid } baseState).1.mRegistrationTimeout ≤
      1 + baseState.mRegistrationJitter := by
  have h := handlePrimaryUpdate_vacancy envW
    { mSequenceNumber := 0, mReregistrationDelay := 4, mMlrTimeout := 300,
      mServer16 := kShortAddrInvalid } baseState (by decide) (by decide) (by decide)
    (by decide)
  exact ⟨h.1, h.2.1, (h.2.2.2 (by decide)).1, (h.2.2.2 (by decide)).2⟩

/-- Claim C7: from a countdown of 3 under zero pending role-selection jitter,
three ticks decrement once each, fire exactly one decide-mode registration
attempt (on the third tick, when the countdown reaches 0), and then deregister
from the tick source. -/
theorem handleTimeTick_countdown (env : Env) (s : LocalState)
    (h3 : s.mRegistrationTimeout = 3) (hj : env.routerSelectionJitterTimeout = 0) :
    (HandleTimeTick env s).1.mRegistrationTimeout = 2 ∧
    (HandleTimeTick env s).2 = [] ∧
    (HandleTimeTick env (HandleTimeTick env s).1).1.mRegistrationTimeout = 1 ∧
    (HandleTimeTick env (HandleTimeTick env s).1).2 = [] ∧
    (HandleTimeTick env (HandleTimeTick env
      (HandleTimeTick env s).1).1).1.mRegistrationTimeout = 0 ∧
    countAttempts (HandleTimeTick env (HandleTimeTick env
      (HandleTimeTick env s).1).1).2 = 1 ∧
    Effect.attemptAddService RegisterMode.decideBasedOnState ∈
      (HandleTimeTick env (HandleTimeTick env (HandleTimeTick env s).1).1).2 ∧
    Effect.unregisterTickReceiver ∈
      (HandleTimeTick env (HandleTimeTick env (HandleTimeTick env s).1).1).2 := by
  have e1 : HandleTimeTick env s = ({ s with mRegistrationTimeout := 2 }, []) := by
    simp [HandleTimeTick, hj, h3]
  have e2 : HandleTimeTick env ({ s with mRegistrationTimeout := 2 } : LocalState) =
      ({ s with mRegistrationTimeout := 1 }, []) := by
    simp [HandleTimeTick, hj]
  have hf := (AddService_fields env RegisterMode.decideBasedOnState
    ({ s with mRegistrationTimeout := 0 } : LocalState)).2.2.2.2.1
  have e3 : HandleTimeTick env ({ s with mRegistrationTimeout := 1 } : LocalState) =
      ((AddService env RegisterMode.decideBasedOnState
          ({ s with mRegistrationTimeout := 0 } : LocalState)).1,
       (AddService env RegisterMode.decideBasedOnState
          ({ s with mRegistrationTimeout := 0 } : LocalState)).2.1 ++
         [Effect.unregisterTickReceiver]) := by
    simp [HandleTimeTick, hj, hf]
  rcases AddService_trace env RegisterMode.decideBasedOnState
      ({ s with mRegistrationTimeout := 0 } : LocalState) with htr | htr | htr <;>
    simp [e1, e2, e3, htr, hf, countAttempts]

/-- Witness for C7 at a concrete armed Secondary instance. -/
theorem handleTimeTick_countdown_witness :
    (HandleTimeTick envW { baseState with mRegistrationTimeout := 3 }).1.mRegistrationTimeout
      = 2 ∧
    (HandleTimeTick envW { baseState with mRegistrationTimeout := 3 }).2 = [] ∧
    countAttempts (HandleTimeTick envW (HandleTimeTick envW
      (HandleTimeTick envW { baseState with mRegistrationTimeout := 3 }).1).1).2 = 1 ∧
    Effect.unregisterTickReceiver ∈
      (HandleTimeTick envW (HandleTimeTick envW
        (HandleTimeTick envW { baseState with mRegistrationTimeout := 3 }).1).1).2 := by
  have h := handleTimeTick_countdown envW { baseState with mRegistrationTimeout := 3 }
    (by decide) (by decide)
  exact ⟨h.1, h.2.1, h.2.2.2.2.2.1, h.2.2.2.2.2.2.2⟩

/-- Sample leader update reporting another node (RLOC16 0x0800) as holder. -/
def cOther : Config :=
  { mSequenceNumber := 1, mReregistrationDelay := 4, mMlrTimeout := 300,
    mServer16 := 0x0800 }

/-- Counterexample to C9 as stated: with the service never added
(`mIsServiceAdded = false`), a leader update reporting a differing holder
still calls `Reset()` — the update equals `Reset` and issues the
service-withdraw collaborator call — contradicting that `Reset()` is called
only if this node previously thought it had attempted registration. -/
theorem handlePrimaryUpdate_other_counterexample :
    baseState.mIsServiceAdded = false ∧
    cOther.mServer16 ≠ kShortAddrInvalid ∧
    cOther.mServer16 ≠ envW.rloc16 ∧
    HandleBackboneRouterPrimaryUpdate envW cOther baseState = Reset envW baseState ∧
    (HandleBackboneRouterPrimaryUpdate envW cOther baseState).2 =
      [Effect.netdataRemoveSvc, Effect.serverDataUpdated] := by
  decide

/-- Claim C9 (amended): on an enabled, attached instance, a leader update
reporting a valid holder differing from self calls `Reset()` unconditionally
(not only when registration had been attempted); when this node had not
attempted registration and is Secondary, the instance's state fields are
nevertheless left unchanged. -/
theorem handlePrimaryUpdate_other (env : Env) (c : Config) (s : LocalState)
    (hEn : IsEnabled s = true) (hAtt : env.isAttached = true)
    (hNV : c.mServer16 ≠ kShortAddrInvalid) (hO : c.mServer16 ≠ env.rloc16) :
    HandleBackboneRouterPrimaryUpdate env c s = Reset env s ∧
    (s.mState = RoleState.secondary → s.mIsServiceAdded = false →
      (HandleBackboneRouterPrimaryUpdate env c s).1 = s) := by
  have he : HandleBackboneRouterPrimaryUpdate env c s = Reset env s := by
    unfold HandleBackboneRouterPrimaryUpdate
    rw [if_pos ⟨hEn, hAtt⟩, if_neg hNV, if_pos hO]
  refine ⟨he, ?_⟩
  intro hs hna
  rw [he]
  unfold Reset RemoveService
  obtain ⟨st, mt, rd, rt, sq, rj, sa, dp, ap⟩ := s
  split_ifs <;> simp_all

/-- Witness for the amended C9 at a concrete Secondary instance with the
service never added. -/
theorem handlePrimaryUpdate_other_witness :
    HandleBackboneRouterPrimaryUpdate envW cOther baseState = Reset envW baseState ∧
    (HandleBackboneRouterPrimaryUpdate envW cOther baseState).1 = baseState := by
  have h := handlePrimaryUpdate_other envW cOther baseState (by decide) (by decide)
    (by decide) (by decide)
  exact ⟨h.1, h.2 (by decide) (by decide)⟩
